import Mathlib

/-!
Verification development for the authentication core of the
go-enterprise-api repository: a shallow embedding of the auth service
(`internal/services` auth service, `internal/middleware/auth.go`,
`internal/repository` user repository, `pkg/errors`, `internal/models`
user model) together with theorems settling the stated properties.

Modelling conventions:
* machine time is a `Nat` (seconds; JWT numeric dates have second
  resolution), passed explicitly where Go calls `time.Now()`;
* JWT strings are modelled symbolically: a signed token is the tuple of
  its claims, signing-algorithm family and signing secret (HMAC signing
  is deterministic, so two tokens with equal claims and secret are equal
  as strings, and distinct claims give distinct strings);
* bcrypt is modelled symbolically: the hash of a plaintext determines
  and is determined by the plaintext; a non-hash value never verifies;
* the GORM-backed store is a list of user rows; each store call can be
  made to fail through an explicit fault injection record, modelling a
  generic storage failure;
* UUIDs are `Nat`s supplied by the caller where Go generates them.
-/

namespace GoAuth

/-- Application error record, from `pkg/errors/errors.go` (`AppError`).
`Err`/`Data` fields are not carried: no claim depends on them. -/
structure AppError where
  code : Nat
  message : String
  details : String
  statusCode : Nat
deriving DecidableEq, Repr

/-- `NewAppError` from `pkg/errors/errors.go`. -/
def NewAppError (statusCode code : Nat) (message : String) : AppError :=
  { code := code, message := message, details := "", statusCode := statusCode }

/-- `(*AppError).WithDetails` from `pkg/errors/errors.go` (functional view). -/
def AppError.WithDetails (e : AppError) (details : String) : AppError :=
  { e with details := details }

/-- Error codes from `pkg/errors/errors.go`. -/
def CodeInternalError : Nat := 1000
def CodeUnauthorized : Nat := 2000
def CodeInvalidToken : Nat := 2001
def CodeInvalidCredentials : Nat := 2003
def CodeForbidden : Nat := 2004
def CodeUserNotFound : Nat := 3000
def CodeInvalidPassword : Nat := 3002
def CodeEmailExists : Nat := 3003

/-- `ErrInternal` from `pkg/errors/errors.go`. -/
def ErrInternal : AppError := NewAppError 500 CodeInternalError "Internal server error"
/-- `ErrUnauthorized` from `pkg/errors/errors.go`. -/
def ErrUnauthorized : AppError := NewAppError 401 CodeUnauthorized "Unauthorized"
/-- `ErrInvalidToken` from `pkg/errors/errors.go`. -/
def ErrInvalidToken : AppError := NewAppError 401 CodeInvalidToken "Invalid token"
/-- `ErrInvalidCredentials` from `pkg/errors/errors.go`. -/
def ErrInvalidCredentials : AppError := NewAppError 401 CodeInvalidCredentials "Invalid credentials"
/-- `ErrForbidden` from `pkg/errors/errors.go`. -/
def ErrForbidden : AppError := NewAppError 403 CodeForbidden "Forbidden"
/-- `ErrUserNotFound` from `pkg/errors/errors.go`. -/
def ErrUserNotFound : AppError := NewAppError 404 CodeUserNotFound "User not found"
/-- `ErrInvalidPassword` from `pkg/errors/errors.go`. -/
def ErrInvalidPassword : AppError := NewAppError 400 CodeInvalidPassword "Invalid password"
/-- `ErrEmailExists` from `pkg/errors/errors.go`. -/
def ErrEmailExists : AppError := NewAppError 409 CodeEmailExists "Email already exists"

/-- Role constants from `internal/models` (user model); Go `UserRole` is a
string type, kept as `String`. -/
def RoleUser : String := "user"
def RoleAdmin : String := "admin"
def RoleModerator : String := "moderator"

/-- Status constants from `internal/models` (user model); Go `UserStatus`
is a string type, kept as `String`. -/
def StatusActive : String := "active"
def StatusInactive : String := "inactive"
def StatusBanned : String := "banned"
def StatusPending : String := "pending"

/-- The user `Password` column: either a bcrypt hash (symbolically, the
plaintext it was derived from) or a value that is not a bcrypt hash
(e.g. a plaintext that was never run through the `BeforeCreate` hook).
bcrypt salts are per-call, so hash values never collide with non-hash
values; the salt itself is immaterial to every claim and is omitted. -/
inductive StoredPassword
  | plain (s : String)
  | hashed (s : String)
deriving DecidableEq, Repr

/-- `bcrypt.GenerateFromPassword` (symbolic model; never fails). -/
def bcryptGenerate (password : String) : StoredPassword :=
  .hashed password

/-- JWT claims from the auth service (`Claims` struct): user id, email,
role, token type plus the registered claims generated by
`generateTokenPair`. `subject` is `user.ID.String()`, kept as the id. -/
structure Claims where
  userId : Nat
  email : String
  role : String
  tokenType : String
  expiresAt : Nat
  issuedAt : Nat
  notBefore : Nat
  issuer : String
  subject : Nat
deriving DecidableEq, Repr

/-- Signing-algorithm family of a JWT: the service accepts exactly the
HMAC family (`jwt.SigningMethodHMAC`), rejecting others. -/
inductive Alg
  | hmac
  | rsa
  | noSig
deriving DecidableEq, Repr

/-- A JWT string, symbolically: a well-formed signed token is its claims,
algorithm family and signing secret (HS256 signing is deterministic, so
string equality is equality of this data); `garbage s` stands for any
string that is not a well-formed JWT, e.g. the empty string stored by
`Logout`. -/
inductive TokenStr
  | signed (claims : Claims) (alg : Alg) (secret : String)
  | garbage (s : String)
deriving DecidableEq, Repr

/-- Configuration fields the auth service reads (`config.Config`):
`JWT.Secret`, `JWT.ExpiryHours`, `JWT.RefreshExpiryHours`, `App.Name`. -/
structure Config where
  jwtSecret : String
  jwtExpiryHours : Nat
  jwtRefreshExpiryHours : Nat
  appName : String
deriving DecidableEq, Repr

/-- `TokenPair` from the auth service. -/
structure TokenPair where
  accessToken : TokenStr
  refreshToken : TokenStr
  expiresAt : Nat
  tokenType : String
deriving DecidableEq, Repr

/-- User row, from `internal/models` (user model); the fields the auth
core reads and writes. -/
structure User where
  id : Nat
  email : String
  password : StoredPassword
  firstName : String
  lastName : String
  role : String
  status : String
  refreshToken : TokenStr
  lastLoginAt : Option Nat
deriving DecidableEq, Repr

/-- `(*User).IsActive` from `internal/models`. -/
def User.IsActive (u : User) : Bool :=
  u.status = StatusActive

/-- `(*User).CheckPassword` from `internal/models`:
`bcrypt.CompareHashAndPassword` succeeds exactly when the stored value is
a bcrypt hash of the supplied plaintext; comparison against a non-hash
value always fails. -/
def User.CheckPassword (u : User) (password : String) : Bool :=
  match u.password with
  | .hashed p => p = password
  | .plain _ => false

/-- `(*User).BeforeCreate` from `internal/models` (the password-hashing
part): hashes the password when its length is in (0, 60); bcrypt hashes
are 60 bytes, so an already-hashed value is left alone, as is an
over-long plaintext or an empty one. The id is assigned by the caller of
`Create` in this model. -/
def User.BeforeCreate (u : User) : User :=
  match u.password with
  | .plain s =>
      if 0 < s.length ∧ s.length < 60 then { u with password := .hashed s } else u
  | .hashed _ => u

/-- `(*authService).generateTokenPair`: builds access and refresh claims
from the identity at `now`, signs both with HS256 under the configured
secret. Signing never fails in the symbolic model. -/
def generateTokenPair (cfg : Config) (now : Nat) (user : User) : TokenPair :=
  let accessExpiry := now + cfg.jwtExpiryHours * 3600
  let refreshExpiry := now + cfg.jwtRefreshExpiryHours * 3600
  let accessClaims : Claims :=
    { userId := user.id, email := user.email, role := user.role, tokenType := "access"
      expiresAt := accessExpiry, issuedAt := now, notBefore := now
      issuer := cfg.appName, subject := user.id }
  let refreshClaims : Claims :=
    { userId := user.id, email := user.email, role := user.role, tokenType := "refresh"
      expiresAt := refreshExpiry, issuedAt := now, notBefore := now
      issuer := cfg.appName, subject := user.id }
  { accessToken := .signed accessClaims .hmac cfg.jwtSecret
    refreshToken := .signed refreshClaims .hmac cfg.jwtSecret
    expiresAt := accessExpiry
    tokenType := "Bearer" }

/-- `(*authService).ValidateToken`: rejects non-HMAC signing methods,
wrong secrets, expired and not-yet-valid tokens, and malformed strings,
each with `ErrInvalidToken`; returns the decoded claims otherwise. -/
def ValidateToken (cfg : Config) (now : Nat) (tok : TokenStr) : Except AppError Claims :=
  match tok with
  | .garbage _ => .error ErrInvalidToken
  | .signed c alg secret =>
      if alg ≠ Alg.hmac then .error ErrInvalidToken
      else if secret ≠ cfg.jwtSecret then .error ErrInvalidToken
      else if c.expiresAt ≤ now then .error ErrInvalidToken
      else if now < c.notBefore then .error ErrInvalidToken
      else .ok c

/-- The credential store is the list of user rows. -/
abbrev Db := List User

/-- Fault injection for the store: a `true` flag makes the corresponding
repository call fail with a generic storage error on its next use. -/
structure Faults where
  existsByEmail : Bool
  create : Bool
  findByEmail : Bool
  findById : Bool
  updateRefreshToken : Bool
  updateLastLogin : Bool
  updatePassword : Bool
deriving DecidableEq, Repr

/-- The fault-free store. -/
def noFaults : Faults :=
  { existsByEmail := false, create := false, findByEmail := false, findById := false
    updateRefreshToken := false, updateLastLogin := false, updatePassword := false }

/-- Repository-level failure, from `internal/repository` (user
repository): `notFound` is GORM's record-not-found, which the user
repository maps to `ErrUserNotFound`; `storage` is any other error,
returned to the service as a raw (non-`AppError`) error. -/
inductive RepoErr
  | notFound
  | storage
deriving DecidableEq, Repr

/-- `(*userRepository).FindByID`. -/
def repoFindByID (f : Faults) (db : Db) (id : Nat) : Except RepoErr User :=
  if f.findById then .error .storage
  else
    match db.find? (fun u => u.id = id) with
    | some u => .ok u
    | none => .error .notFound

/-- `(*userRepository).FindByEmail`. -/
def repoFindByEmail (f : Faults) (db : Db) (email : String) : Except RepoErr User :=
  if f.findByEmail then .error .storage
  else
    match db.find? (fun u => u.email = email) with
    | some u => .ok u
    | none => .error .notFound

/-- `(*userRepository).ExistsByEmail`. -/
def repoExistsByEmail (f : Faults) (db : Db) (email : String) : Except RepoErr Bool :=
  if f.existsByEmail then .error .storage
  else .ok (db.any (fun u => u.email = email))

/-- `(*BaseRepository).Create` for users: runs the `BeforeCreate` hook
and appends the row. -/
def repoCreate (f : Faults) (db : Db) (u : User) : Except RepoErr Db :=
  if f.create then .error .storage
  else .ok (db ++ [u.BeforeCreate])

/-- `(*userRepository).UpdateRefreshToken`: `UPDATE users SET
refresh_token = tok WHERE id = id`. -/
def repoUpdateRefreshToken (f : Faults) (db : Db) (id : Nat) (tok : TokenStr) :
    Except RepoErr Db :=
  if f.updateRefreshToken then .error .storage
  else .ok (db.map (fun u => if u.id = id then { u with refreshToken := tok } else u))

/-- `(*userRepository).UpdateLastLogin`. -/
def repoUpdateLastLogin (f : Faults) (db : Db) (id : Nat) (now : Nat) : Except RepoErr Db :=
  if f.updateLastLogin then .error .storage
  else .ok (db.map (fun u => if u.id = id then { u with lastLoginAt := some now } else u))

/-- `(*userRepository).UpdatePassword`. -/
def repoUpdatePassword (f : Faults) (db : Db) (id : Nat) (password : StoredPassword) :
    Except RepoErr Db :=
  if f.updatePassword then .error .storage
  else .ok (db.map (fun u => if u.id = id then { u with password := password } else u))

/-- A failure returned by the auth service to its caller: either a typed
`AppError` or a raw error passed through unchanged (the service-layer
`return err` paths). -/
inductive AuthErr
  | app (e : AppError)
  | raw
deriving DecidableEq, Repr

/-- `RegisterRequest` from the auth service. -/
structure RegisterRequest where
  email : String
  password : String
  firstName : String
  lastName : String
deriving DecidableEq, Repr

/-- `LoginRequest` from the auth service. -/
structure LoginRequest where
  email : String
  password : String
deriving DecidableEq, Repr

/-- `(*authService).Register`: duplicate-email check, row creation with
role `user` and status `active`, token issuance, refresh-token persist;
every storage failure is surfaced as `ErrInternal`. `newId` is the UUID
the `BeforeCreate` hook would generate. -/
def Register (cfg : Config) (f : Faults) (db : Db) (now newId : Nat)
    (req : RegisterRequest) : Except AuthErr (User × TokenPair) × Db :=
  match repoExistsByEmail f db req.email with
  | .error _ => (.error (.app ErrInternal), db)
  | .ok b =>
      if b then (.error (.app ErrEmailExists), db)
      else
        let user : User :=
          { id := newId, email := req.email, password := .plain req.password
            firstName := req.firstName, lastName := req.lastName
            role := RoleUser, status := StatusActive
            refreshToken := .garbage "", lastLoginAt := none }
        match repoCreate f db user with
        | .error _ => (.error (.app ErrInternal), db)
        | .ok db1 =>
            let user1 := user.BeforeCreate
            let tokens := generateTokenPair cfg now user1
            match repoUpdateRefreshToken f db1 newId tokens.refreshToken with
            | .error _ => (.error (.app ErrInternal), db1)
            | .ok db2 => (.ok (user1, tokens), db2)

/-- `(*authService).Login`: a `FindByEmail` failure of any kind yields
`ErrInvalidCredentials`; failures of the refresh-token save and of the
last-login update are logged only and do not fail the login. -/
def Login (cfg : Config) (f : Faults) (db : Db) (now : Nat) (req : LoginRequest) :
    Except AuthErr (User × TokenPair) × Db :=
  match repoFindByEmail f db req.email with
  | .error _ => (.error (.app ErrInvalidCredentials), db)
  | .ok user =>
      if ¬ user.CheckPassword req.password then (.error (.app ErrInvalidCredentials), db)
      else if ¬ user.IsActive then
        (.error (.app (ErrForbidden.WithDetails "Account is not active")), db)
      else
        let tokens := generateTokenPair cfg now user
        let db1 :=
          match repoUpdateRefreshToken f db user.id tokens.refreshToken with
          | .error _ => db
          | .ok d => d
        let db2 :=
          match repoUpdateLastLogin f db1 user.id now with
          | .error _ => db1
          | .ok d => d
        (.ok (user, tokens), db2)

/-- `(*authService).Logout`: clears the stored refresh token (sets it to
the empty string); a storage failure is surfaced as `ErrInternal`. -/
def Logout (f : Faults) (db : Db) (userID : Nat) : Except AuthErr Unit × Db :=
  match repoUpdateRefreshToken f db userID (.garbage "") with
  | .error _ => (.error (.app ErrInternal), db)
  | .ok db1 => (.ok (), db1)

/-- `(*authService).RefreshTokens`: validate, require kind `refresh`,
look up the identity, require exact match with the stored refresh token,
require status `active`, then issue and persist a new pair. -/
def RefreshTokens (cfg : Config) (f : Faults) (db : Db) (now : Nat)
    (refreshToken : TokenStr) : Except AuthErr TokenPair × Db :=
  match ValidateToken cfg now refreshToken with
  | .error _ => (.error (.app ErrInvalidToken), db)
  | .ok claims =>
      if claims.tokenType ≠ "refresh" then (.error (.app ErrInvalidToken), db)
      else
        match repoFindByID f db claims.userId with
        | .error _ => (.error (.app ErrUserNotFound), db)
        | .ok user =>
            if user.refreshToken ≠ refreshToken then (.error (.app ErrInvalidToken), db)
            else if ¬ user.IsActive then
              (.error (.app (ErrForbidden.WithDetails "Account is not active")), db)
            else
              let tokens := generateTokenPair cfg now user
              match repoUpdateRefreshToken f db user.id tokens.refreshToken with
              | .error _ => (.error (.app ErrInternal), db)
              | .ok db1 => (.ok tokens, db1)

/-- `(*authService).ChangePassword`: a `FindByID` failure is returned as
is (`ErrUserNotFound` for a missing row, the raw error otherwise); a
wrong old password yields `ErrInvalidPassword` before any write; the
password update failure is `ErrInternal`; the final refresh-token clear
failure is logged only. bcrypt hashing never fails in the model. -/
def ChangePassword (f : Faults) (db : Db) (userID : Nat)
    (oldPassword newPassword : String) : Except AuthErr Unit × Db :=
  match repoFindByID f db userID with
  | .error .notFound => (.error (.app ErrUserNotFound), db)
  | .error .storage => (.error .raw, db)
  | .ok user =>
      if ¬ user.CheckPassword oldPassword then (.error (.app ErrInvalidPassword), db)
      else
        let hashedPassword := bcryptGenerate newPassword
        match repoUpdatePassword f db userID hashedPassword with
        | .error _ => (.error (.app ErrInternal), db)
        | .ok db1 =>
            let db2 :=
              match repoUpdateRefreshToken f db1 userID (.garbage "") with
              | .error _ => db1
              | .ok d => d
            (.ok (), db2)

/-- The `Authorization` header of a request, abstracting the string
operations of `internal/middleware/auth.go`: absent (`c.GetHeader`
returned `""`), present without the `"Bearer "` prefix, exactly
`"Bearer "` (empty token substring), or `"Bearer "` followed by a
token string. -/
inductive Header
  | missing
  | notBearer (s : String)
  | bearerEmpty
  | bearer (t : TokenStr)
deriving DecidableEq, Repr

/-- Outcome of `AuthMiddleware` for one request: an aborted request with
the HTTP status, error code, message and details written to the client,
or the handler invoked with user and claims attached to the context. -/
inductive AuthResult
  | rejected (statusCode code : Nat) (message details : String)
  | passed (user : User) (claims : Claims)
deriving DecidableEq, Repr

/-- `AuthMiddleware` from `internal/middleware/auth.go` (required mode),
with each rejection carrying exactly the response the Go code writes
(`response.Unauthorized`, `response.Error`, `response.Forbidden`). -/
def AuthMiddleware (cfg : Config) (f : Faults) (db : Db) (now : Nat) (h : Header) :
    AuthResult :=
  match h with
  | .missing => .rejected 401 CodeUnauthorized "Authorization header is required" ""
  | .notBearer _ => .rejected 401 CodeUnauthorized "Invalid authorization header format" ""
  | .bearerEmpty => .rejected 401 CodeUnauthorized "Token is required" ""
  | .bearer t =>
      match ValidateToken cfg now t with
      | .error _ =>
          .rejected ErrInvalidToken.statusCode ErrInvalidToken.code ErrInvalidToken.message ""
      | .ok claims =>
          if claims.tokenType ≠ "access" then
            .rejected ErrInvalidToken.statusCode ErrInvalidToken.code ErrInvalidToken.message
              "Invalid token type"
          else
            match repoFindByID f db claims.userId with
            | .error _ =>
                .rejected ErrUserNotFound.statusCode ErrUserNotFound.code
                  ErrUserNotFound.message ""
            | .ok user =>
                if ¬ user.IsActive then
                  .rejected 403 CodeForbidden "Account is not active" ""
                else .passed user claims

/-- Outcome of `OptionalAuthMiddleware`: the handler always runs, either
anonymously or with user and claims attached. -/
inductive OptAuthResult
  | anonymous
  | attached (user : User) (claims : Claims)
deriving DecidableEq, Repr

/-- `OptionalAuthMiddleware` from `internal/middleware/auth.go`: the
same extraction steps as `AuthMiddleware` up to the identity lookup,
every failure proceeding anonymously; the Go code has no
`user.IsActive()` check in this middleware. -/
def OptionalAuthMiddleware (cfg : Config) (f : Faults) (db : Db) (now : Nat) (h : Header) :
    OptAuthResult :=
  match h with
  | .missing => .anonymous
  | .notBearer _ => .anonymous
  | .bearerEmpty => .anonymous
  | .bearer t =>
      match ValidateToken cfg now t with
      | .error _ => .anonymous
      | .ok claims =>
          if claims.tokenType ≠ "access" then .anonymous
          else
            match repoFindByID f db claims.userId with
            | .error _ => .anonymous
            | .ok user => .attached user claims

/-! Concrete fixtures used by witnesses and counterexamples. -/

/-- A concrete configuration: secret `"secret"`, 24h access TTL, 168h
refresh TTL, application name `"app"`. -/
def cfg0 : Config :=
  { jwtSecret := "secret", jwtExpiryHours := 24, jwtRefreshExpiryHours := 168, appName := "app" }

/-- The refresh claims `generateTokenPair cfg0 0` produces for user 1. -/
def rc0 : Claims :=
  { userId := 1, email := "a@x.com", role := "user", tokenType := "refresh"
    expiresAt := 604800, issuedAt := 0, notBefore := 0, issuer := "app", subject := 1 }

/-- The access claims `generateTokenPair cfg0 0` produces for user 1. -/
def ac0 : Claims :=
  { userId := 1, email := "a@x.com", role := "user", tokenType := "access"
    expiresAt := 86400, issuedAt := 0, notBefore := 0, issuer := "app", subject := 1 }

/-- The refresh token of the pair issued to user 1 at time 0. -/
def tokR0 : TokenStr := .signed rc0 .hmac "secret"

/-- The access token of the pair issued to user 1 at time 0. -/
def tokA0 : TokenStr := .signed ac0 .hmac "secret"

/-- An active user holding the refresh token issued at time 0. -/
def u0 : User :=
  { id := 1, email := "a@x.com", password := .hashed "pw", firstName := "A", lastName := "B"
    role := "user", status := "active", refreshToken := tokR0, lastLoginAt := none }

/-- A one-row store holding `u0`. -/
def db0 : Db := [u0]

/-- `u0` after its status was set to `banned`. -/
def uBanned : User := { u0 with status := "banned" }

/-- A one-row store holding the banned user. -/
def dbBanned : Db := [uBanned]

/-- Fault injection breaking only `UpdateRefreshToken`. -/
def faultsURT : Faults := { noFaults with updateRefreshToken := true }

/-- Fault injection breaking only `FindByEmail`. -/
def faultsFBE : Faults := { noFaults with findByEmail := true }

/-- Fault injection breaking only `ExistsByEmail`. -/
def faultsEBE : Faults := { noFaults with existsByEmail := true }

/-- A concrete registration request. -/
def req7 : RegisterRequest :=
  { email := "e@x.com", password := "password1", firstName := "F", lastName := "L" }

/-- The row `Register cfg0 _ [] 0 7 req7` creates (after the
`BeforeCreate` hook). -/
def user7 : User :=
  User.BeforeCreate
    { id := 7, email := "e@x.com", password := .plain "password1", firstName := "F"
      lastName := "L", role := RoleUser, status := StatusActive
      refreshToken := .garbage "", lastLoginAt := none }

/-- The pair issued to `user7` at time 0. -/
def pair7 : TokenPair := generateTokenPair cfg0 0 user7

/-- The store after that registration. -/
def db7 : Db := [{ user7 with refreshToken := pair7.refreshToken }]

/-! Helper lemmas. -/

/-- Successful validation pins the token: it is HMAC-signed with the
configured secret and carries exactly the returned claims. -/
theorem validateToken_ok_inv {cfg : Config} {now : Nat} {t : TokenStr} {c : Claims}
    (h : ValidateToken cfg now t = .ok c) :
    t = .signed c .hmac cfg.jwtSecret ∧ now < c.expiresAt ∧ c.notBefore ≤ now := by
  cases t with
  | garbage s => simp [ValidateToken] at h
  | signed c' alg secret =>
      unfold ValidateToken at h
      by_cases ha : alg = Alg.hmac
      · subst ha
        by_cases hs : secret = cfg.jwtSecret
        · subst hs
          by_cases he : c'.expiresAt ≤ now
          · simp [he] at h
          · by_cases hn : now < c'.notBefore
            · simp [he, hn] at h
            · simp [he, hn] at h
              subst h
              exact ⟨rfl, by omega, by omega⟩
        · simp [hs] at h
      · simp [ha] at h

/-- A found row satisfies the search predicate: its id is the searched id. -/
theorem find?_id_eq {db : Db} {id : Nat} {u : User}
    (h : db.find? (fun v => v.id = id) = some u) : u.id = id := by
  have := List.find?_some h
  simpa using this

/-- Updating the refresh token of row `id` and searching for `id` finds
the updated row. -/
theorem find?_update_self {db : Db} {id : Nat} {u : User} (tok : TokenStr)
    (h : db.find? (fun v => v.id = id) = some u) :
    (db.map (fun v => if v.id = id then { v with refreshToken := tok } else v)).find?
        (fun v => v.id = id) = some { u with refreshToken := tok } := by
  induction db with
  | nil => simp at h
  | cons a l ih =>
      by_cases ha : a.id = id
      · simp [List.find?_cons, ha] at h ⊢
        subst h
        simp [ha]
      · simp [List.find?_cons, ha] at h ⊢
        simpa using ih h

/-- The `BeforeCreate` hook only touches the password field. -/
theorem beforeCreate_fields (u : User) :
    u.BeforeCreate.role = u.role ∧ u.BeforeCreate.status = u.status ∧
    u.BeforeCreate.id = u.id := by
  unfold User.BeforeCreate
  cases hp : u.password with
  | plain s =>
      by_cases hl : 0 < s.length ∧ s.length < 60
      · simp [hl]
      · simp [hl]
  | hashed s => simp

/-- Searching an appended row whose id is fresh for the rest of the
store finds that row. -/
theorem find?_append_fresh (db : Db) (x : User) (id : Nat)
    (hfresh : ∀ v ∈ db, v.id ≠ id) (hx : x.id = id) :
    (db ++ [x]).find? (fun v => v.id = id) = some x := by
  induction db with
  | nil => simp [List.find?_cons, hx]
  | cons a l ih =>
      have ha : ¬ a.id = id := hfresh a (by simp)
      rw [List.cons_append, List.find?_cons_of_neg _ (by simpa using ha)]
      exact ih (fun v hv => hfresh v (by simp [hv]))

/-- Inversion of a successful `repoFindByID`. -/
theorem repoFindByID_ok_inv {f : Faults} {db : Db} {id : Nat} {u : User}
    (h : repoFindByID f db id = .ok u) :
    f.findById = false ∧ db.find? (fun v => v.id = id) = some u ∧ u.id = id := by
  unfold repoFindByID at h
  by_cases hf : f.findById
  · simp [hf] at h
  · refine ⟨by simpa using hf, ?_⟩
    simp only [hf, if_false, Bool.false_eq_true] at h
    cases hfind : db.find? (fun v => v.id = id) with
    | none => rw [hfind] at h; cases h
    | some v =>
        rw [hfind] at h
        cases h
        exact ⟨rfl, find?_id_eq hfind⟩

/-- Inversion of a successful `RefreshTokens`: the presented token
validated as a refresh token, matched the stored one for an active user,
and the store now holds the refresh token of the returned pair. -/
theorem refreshTokens_ok_inv {cfg : Config} {f : Faults} {db : Db} {now : Nat} {t : TokenStr}
    {pair : TokenPair} {db1 : Db}
    (h : RefreshTokens cfg f db now t = (.ok pair, db1)) :
    ∃ c u, ValidateToken cfg now t = .ok c ∧ c.tokenType = "refresh" ∧
      repoFindByID f db c.userId = .ok u ∧ u.refreshToken = t ∧ u.IsActive = true ∧
      pair = generateTokenPair cfg now u ∧
      db1 = db.map
        (fun v => if v.id = u.id then { v with refreshToken := pair.refreshToken } else v) := by
  simp only [RefreshTokens] at h
  cases hv : ValidateToken cfg now t with
  | error e => simp [hv] at h
  | ok c =>
      simp only [hv] at h
      by_cases hk : c.tokenType = "refresh"
      · simp only [hk, ne_eq, not_true_eq_false, if_false, Bool.false_eq_true] at h
        cases hu : repoFindByID f db c.userId with
        | error re => simp [hu] at h
        | ok u =>
            simp only [hu] at h
            by_cases hm : u.refreshToken = t
            · by_cases hact : u.IsActive
              · simp only [hm, ne_eq, not_true_eq_false, if_false, hact,
                  Bool.false_eq_true, not_false_eq_true, if_true] at h
                cases hupd : repoUpdateRefreshToken f db u.id
                    (generateTokenPair cfg now u).refreshToken with
                | error re => simp [hupd] at h
                | ok d =>
                    simp only [hupd] at h
                    obtain ⟨h1, h2⟩ := Prod.mk.injEq .. ▸ h
                    cases h1
                    unfold repoUpdateRefreshToken at hupd
                    by_cases hfu : f.updateRefreshToken
                    · simp [hfu] at hupd
                    · simp only [hfu, if_false, Bool.false_eq_true] at hupd
                      cases hupd
                      exact ⟨c, u, rfl, hk, hu, hm, by simpa using hact, rfl, h2.symm⟩
              · simp [hm, hact] at h
            · simp [hm] at h
      · simp [hk] at h

/-- Inversion of a successful `Register`: the returned identity is the
created row after the `BeforeCreate` hook, the returned pair was
generated for it at `now`, and the store holds the created row with the
pair's refresh token written into it. -/
theorem register_ok_inv {cfg : Config} {f : Faults} {db : Db} {now newId : Nat}
    {req : RegisterRequest} {user : User} {pair : TokenPair} {db1 : Db}
    (h : Register cfg f db now newId req = (.ok (user, pair), db1)) :
    user = User.BeforeCreate
      { id := newId, email := req.email, password := .plain req.password
        firstName := req.firstName, lastName := req.lastName
        role := RoleUser, status := StatusActive
        refreshToken := .garbage "", lastLoginAt := none } ∧
    pair = generateTokenPair cfg now user ∧
    db1 = (db ++ [user]).map
      (fun v => if v.id = newId then { v with refreshToken := pair.refreshToken } else v) := by
  simp only [Register] at h
  cases hex : repoExistsByEmail f db req.email with
  | error re => simp [hex] at h
  | ok b =>
      simp only [hex] at h
      by_cases hb : b
      · simp [hb] at h
      · simp only [hb, if_false, Bool.false_eq_true] at h
        cases hcr : repoCreate f db
            { id := newId, email := req.email, password := .plain req.password
              firstName := req.firstName, lastName := req.lastName
              role := RoleUser, status := StatusActive
              refreshToken := .garbage "", lastLoginAt := none } with
        | error re => simp [hcr] at h
        | ok dbc =>
            simp only [hcr] at h
            cases hupd : repoUpdateRefreshToken f dbc newId
                (generateTokenPair cfg now
                  (User.BeforeCreate
                    { id := newId, email := req.email, password := .plain req.password
                      firstName := req.firstName, lastName := req.lastName
                      role := RoleUser, status := StatusActive
                      refreshToken := .garbage "", lastLoginAt := none })).refreshToken with
            | error re => simp [hupd] at h
            | ok dbu =>
                simp only [hupd] at h
                obtain ⟨h1, h2⟩ := Prod.mk.injEq .. ▸ h
                obtain ⟨hu, hp⟩ := Prod.mk.injEq .. ▸ Except.ok.inj h1
                unfold repoCreate at hcr
                by_cases hfc : f.create
                · simp [hfc] at hcr
                · simp only [hfc, if_false, Bool.false_eq_true] at hcr
                  cases hcr
                  unfold repoUpdateRefreshToken at hupd
                  by_cases hfu : f.updateRefreshToken
                  · simp [hfu] at hupd
                  · simp only [hfu, if_false, Bool.false_eq_true] at hupd
                    cases hupd
                    subst hu
                    subst hp
                    exact ⟨rfl, rfl, h2.symm⟩

/-- C1 counterexample data: the claim fails when the replacement refresh
token issued by the exchange is string-identical to the presented one,
which happens when the exchange runs in the same second as the
original issuance with unchanged identity attributes (HS256 signing is
deterministic). Here `tokR0` is the refresh token `generateTokenPair`
issues for `u0` at time 0, `u0` stores it, and refreshing at time 0
re-issues exactly `tokR0`. -/
theorem refreshTokens_reuse_accepted_cex :
    (RefreshTokens cfg0 noFaults db0 0 tokR0).1.isOk = true ∧
    (RefreshTokens cfg0 noFaults (RefreshTokens cfg0 noFaults db0 0 tokR0).2 1 tokR0).1.isOk
      = true := by
  constructor
  · rfl
  · rfl

/-- C1 (amended): once a refresh token `t` has been successfully
exchanged via `RefreshTokens` and the newly issued refresh token differs
from `t` (which holds except when re-issuance reproduces `t` exactly,
i.e. same-second re-issuance with unchanged identity attributes), any
later fault-free `RefreshTokens` call presenting `t` again fails with
`InvalidToken` or `Forbidden`. -/
theorem refreshTokens_single_use (cfg : Config) (db : Db) (now1 now2 : Nat) (t : TokenStr)
    (pair : TokenPair) (db1 : Db)
    (h : RefreshTokens cfg noFaults db now1 t = (.ok pair, db1))
    (hne : pair.refreshToken ≠ t) :
    (RefreshTokens cfg noFaults db1 now2 t).1 = .error (.app ErrInvalidToken) ∨
    (RefreshTokens cfg noFaults db1 now2 t).1 =
      .error (.app (ErrForbidden.WithDetails "Account is not active")) := by
  left
  obtain ⟨c, u, hv, hk, hfind, hm, hact, hpair, hdb1⟩ := refreshTokens_ok_inv h
  obtain ⟨hf0, hfind', hid⟩ := repoFindByID_ok_inv hfind
  cases hv2 : ValidateToken cfg now2 t with
  | error e => simp [RefreshTokens, hv2]
  | ok c2 =>
      obtain ⟨hteq2, -, -⟩ := validateToken_ok_inv hv2
      obtain ⟨hteq1, -, -⟩ := validateToken_ok_inv hv
      rw [hteq2] at hteq1
      injection hteq1 with hc2 halg hsec
      rw [hc2] at hv2
      rw [← hid] at hfind'
      have hupd : db1.find? (fun v => v.id = u.id)
          = some { u with refreshToken := pair.refreshToken } := by
        rw [hdb1]
        exact find?_update_self _ hfind'
      simp [RefreshTokens, hv2, hk, repoFindByID, noFaults, ← hid, hupd, hne]

/-- Witness for `refreshTokens_single_use`: a concrete exchange at time 1
of the token issued at time 0, replayed at time 2. -/
theorem refreshTokens_single_use_witness :
    (RefreshTokens cfg0 noFaults
        [{ u0 with refreshToken := (generateTokenPair cfg0 1 u0).refreshToken }] 2 tokR0).1
      = .error (.app ErrInvalidToken) ∨
    (RefreshTokens cfg0 noFaults
        [{ u0 with refreshToken := (generateTokenPair cfg0 1 u0).refreshToken }] 2 tokR0).1
      = .error (.app (ErrForbidden.WithDetails "Account is not active")) :=
  refreshTokens_single_use cfg0 db0 1 2 tokR0 (generateTokenPair cfg0 1 u0)
    [{ u0 with refreshToken := (generateTokenPair cfg0 1 u0).refreshToken }]
    (by rfl) (by decide)

/-- C2: over a fault-free store, `RefreshTokens` succeeds if and only if
the presented token `t` validates (signature, expiry, not-before), has
kind `refresh`, names an existing identity whose stored refresh token
exactly equals `t` and whose status is active; on success it returns the
freshly generated pair and overwrites the stored refresh token. It fails
with `InvalidToken` on validation failure, on a wrong token kind and on
a stored-token mismatch (the same error value as for an invalid token),
with `UserNotFound` when the identity lookup fails, and with `Forbidden`
when the identity is not active. -/
theorem refreshTokens_characterization (cfg : Config) (db : Db) (now : Nat) (t : TokenStr) :
    ((RefreshTokens cfg noFaults db now t).1.isOk = true ↔
      ∃ c u, ValidateToken cfg now t = .ok c ∧ c.tokenType = "refresh" ∧
        db.find? (fun v => v.id = c.userId) = some u ∧ u.refreshToken = t ∧
        u.IsActive = true) ∧
    (∀ c u, ValidateToken cfg now t = .ok c → c.tokenType = "refresh" →
      db.find? (fun v => v.id = c.userId) = some u → u.refreshToken = t →
      u.IsActive = true →
      RefreshTokens cfg noFaults db now t =
        (.ok (generateTokenPair cfg now u),
         db.map (fun v => if v.id = u.id
            then { v with refreshToken := (generateTokenPair cfg now u).refreshToken }
            else v))) ∧
    (∀ e, ValidateToken cfg now t = .error e →
      RefreshTokens cfg noFaults db now t = (.error (.app ErrInvalidToken), db)) ∧
    (∀ c, ValidateToken cfg now t = .ok c → c.tokenType ≠ "refresh" →
      RefreshTokens cfg noFaults db now t = (.error (.app ErrInvalidToken), db)) ∧
    (∀ c, ValidateToken cfg now t = .ok c → c.tokenType = "refresh" →
      db.find? (fun v => v.id = c.userId) = none →
      RefreshTokens cfg noFaults db now t = (.error (.app ErrUserNotFound), db)) ∧
    (∀ c u, ValidateToken cfg now t = .ok c → c.tokenType = "refresh" →
      db.find? (fun v => v.id = c.userId) = some u → u.refreshToken ≠ t →
      RefreshTokens cfg noFaults db now t = (.error (.app ErrInvalidToken), db)) ∧
    (∀ c u, ValidateToken cfg now t = .ok c → c.tokenType = "refresh" →
      db.find? (fun v => v.id = c.userId) = some u → u.refreshToken = t →
      u.IsActive = false →
      RefreshTokens cfg noFaults db now t =
        (.error (.app (ErrForbidden.WithDetails "Account is not active")), db)) := by
  have hsucc : ∀ c u, ValidateToken cfg now t = .ok c → c.tokenType = "refresh" →
      db.find? (fun v => v.id = c.userId) = some u → u.refreshToken = t →
      u.IsActive = true →
      RefreshTokens cfg noFaults db now t =
        (.ok (generateTokenPair cfg now u),
         db.map (fun v => if v.id = u.id
            then { v with refreshToken := (generateTokenPair cfg now u).refreshToken }
            else v)) := by
    intro c u hv hk hf hm ha
    simp [RefreshTokens, hv, hk, repoFindByID, noFaults, hf, hm, ha, repoUpdateRefreshToken]
  refine ⟨⟨?_, ?_⟩, hsucc, ?_, ?_, ?_, ?_, ?_⟩
  · intro hok
    cases hres : RefreshTokens cfg noFaults db now t with
    | mk r d =>
        rw [hres] at hok
        cases r with
        | error e => simp [Except.isOk, Except.toBool] at hok
        | ok pair =>
            obtain ⟨c, u, hv, hk, hfind, hm, ha, -, -⟩ := refreshTokens_ok_inv hres
            obtain ⟨-, hfind', -⟩ := repoFindByID_ok_inv hfind
            exact ⟨c, u, hv, hk, hfind', hm, ha⟩
  · rintro ⟨c, u, hv, hk, hf, hm, ha⟩
    rw [hsucc c u hv hk hf hm ha]
    rfl
  · intro e hv
    simp [RefreshTokens, hv]
  · intro c hv hk
    simp [RefreshTokens, hv, hk]
  · intro c hv hk hf
    simp [RefreshTokens, hv, hk, repoFindByID, noFaults, hf]
  · intro c u hv hk hf hm
    simp [RefreshTokens, hv, hk, repoFindByID, noFaults, hf, hm]
  · intro c u hv hk hf hm ha
    simp [RefreshTokens, hv, hk, repoFindByID, noFaults, hf, hm, ha]

/-- Witness for `refreshTokens_characterization`: the concrete store
`db0` exchanges `tokR0` at time 0 into the pair generated for `u0`,
overwriting the stored token. -/
theorem refreshTokens_characterization_witness :
    RefreshTokens cfg0 noFaults db0 0 tokR0 =
      (.ok (generateTokenPair cfg0 0 u0),
       db0.map (fun v => if v.id = u0.id
          then { v with refreshToken := (generateTokenPair cfg0 0 u0).refreshToken }
          else v)) :=
  (refreshTokens_characterization cfg0 db0 0 tokR0).2.1 rc0 u0 (by rfl) (by rfl) (by rfl)
    (by rfl) (by rfl)

/-- C3: validating the access token of a freshly issued pair succeeds
(whenever the configured access TTL is positive) and returns claims of
kind `access` carrying the identity's id, email and role at issuance. -/
theorem issue_validate_roundtrip (cfg : Config) (now : Nat) (user : User)
    (h : 0 < cfg.jwtExpiryHours) :
    ∃ c, ValidateToken cfg now (generateTokenPair cfg now user).accessToken = .ok c ∧
      c.tokenType = "access" ∧ c.userId = user.id ∧ c.email = user.email ∧
      c.role = user.role := by
  have hexp : ¬ (now + cfg.jwtExpiryHours * 3600 ≤ now) := by
    have : 0 < cfg.jwtExpiryHours * 3600 := by positivity
    omega
  refine ⟨{ userId := user.id, email := user.email, role := user.role, tokenType := "access"
            expiresAt := now + cfg.jwtExpiryHours * 3600, issuedAt := now, notBefore := now
            issuer := cfg.appName, subject := user.id }, ?_, rfl, rfl, rfl, rfl⟩
  simp [generateTokenPair, ValidateToken, hexp]

/-- Witness for `issue_validate_roundtrip` at the concrete `cfg0`, time
0 and user `u0`. -/
theorem issue_validate_roundtrip_witness :
    ∃ c, ValidateToken cfg0 0 (generateTokenPair cfg0 0 u0).accessToken = .ok c ∧
      c.tokenType = "access" ∧ c.userId = u0.id ∧ c.email = u0.email ∧
      c.role = u0.role :=
  issue_validate_roundtrip cfg0 0 u0 (by decide)

/-- C4 counterexample: in required mode the rejection responses are not
uniform and do reveal which check failed — a banned identity with a
valid, unexpired access token is rejected with HTTP 403 / code 2004
(`Forbidden`, message "Account is not active"), not with an
"unauthorized" response; a missing header gets HTTP 401 / code 2000
with its own message; a failed identity lookup gets HTTP 404 /
code 3000. The three responses are pairwise distinct. -/
theorem authMiddleware_uniform_response_cex :
    AuthMiddleware cfg0 noFaults dbBanned 0 (Header.bearer tokA0)
      = .rejected 403 2004 "Account is not active" "" ∧
    AuthMiddleware cfg0 noFaults dbBanned 0 Header.missing
      = .rejected 401 2000 "Authorization header is required" "" ∧
    AuthMiddleware cfg0 noFaults [] 0 (Header.bearer tokA0)
      = .rejected 404 3000 "User not found" "" ∧
    uBanned.status = StatusBanned ∧
    ValidateToken cfg0 0 tokA0 = .ok ac0 := by
  exact ⟨rfl, rfl, rfl, rfl, rfl⟩

/-- C4 (amended): in required mode every failing check rejects the
request before the handler runs, but the response is distinct per cause
rather than uniform: header problems give 401/2000 with cause-specific
messages, token validation and wrong-kind failures give 401/2001, a
failed identity lookup gives 404/3000, and an inactive (e.g. banned)
identity gives 403/2004 "Account is not active" — a `Forbidden`
response, not an "unauthorized" one. -/
theorem authMiddleware_distinct_responses (cfg : Config) (f : Faults) (db : Db) (now : Nat) :
    (AuthMiddleware cfg f db now Header.missing
      = .rejected 401 CodeUnauthorized "Authorization header is required" "") ∧
    (∀ s, AuthMiddleware cfg f db now (Header.notBearer s)
      = .rejected 401 CodeUnauthorized "Invalid authorization header format" "") ∧
    (AuthMiddleware cfg f db now Header.bearerEmpty
      = .rejected 401 CodeUnauthorized "Token is required" "") ∧
    (∀ t e, ValidateToken cfg now t = .error e →
      AuthMiddleware cfg f db now (Header.bearer t)
        = .rejected 401 CodeInvalidToken "Invalid token" "") ∧
    (∀ t c, ValidateToken cfg now t = .ok c → c.tokenType ≠ "access" →
      AuthMiddleware cfg f db now (Header.bearer t)
        = .rejected 401 CodeInvalidToken "Invalid token" "Invalid token type") ∧
    (∀ t c re, ValidateToken cfg now t = .ok c → c.tokenType = "access" →
      repoFindByID f db c.userId = .error re →
      AuthMiddleware cfg f db now (Header.bearer t)
        = .rejected 404 CodeUserNotFound "User not found" "") ∧
    (∀ t c u, ValidateToken cfg now t = .ok c → c.tokenType = "access" →
      repoFindByID f db c.userId = .ok u → u.status = StatusBanned →
      AuthMiddleware cfg f db now (Header.bearer t)
        = .rejected 403 CodeForbidden "Account is not active" "") ∧
    (AuthResult.rejected 403 CodeForbidden "Account is not active" ""
      ≠ .rejected 401 CodeUnauthorized "Authorization header is required" "") ∧
    (AuthResult.rejected 404 CodeUserNotFound "User not found" ""
      ≠ .rejected 401 CodeInvalidToken "Invalid token" "") := by
  refine ⟨rfl, fun s => rfl, rfl, ?_, ?_, ?_, ?_, by decide, by decide⟩
  · intro t e hv
    simp [AuthMiddleware, hv, ErrInvalidToken, NewAppError]
  · intro t c hv hk
    simp [AuthMiddleware, hv, hk, ErrInvalidToken, NewAppError]
  · intro t c re hv hk hu
    simp [AuthMiddleware, hv, hk, hu, ErrUserNotFound, NewAppError]
  · intro t c u hv hk hu hb
    have hact : u.IsActive = false := by
      simp [User.IsActive, hb, StatusBanned, StatusActive]
    simp [AuthMiddleware, hv, hk, hu, hact]

/-- Witness for `authMiddleware_distinct_responses`: the banned identity
`uBanned` presenting the valid access token `tokA0` is rejected with
403/2004. -/
theorem authMiddleware_distinct_responses_witness :
    AuthMiddleware cfg0 noFaults dbBanned 0 (Header.bearer tokA0)
      = .rejected 403 CodeForbidden "Account is not active" "" :=
  (authMiddleware_distinct_responses cfg0 noFaults dbBanned 0).2.2.2.2.2.2.1 tokA0 ac0 uBanned
    (by rfl) (by rfl) (by rfl) (by rfl)

/-- C5 counterexample: `OptionalAuthMiddleware` performs no
identity-status check — the banned identity `uBanned` presenting the
valid, unexpired access token `tokA0` has its identity and claims
attached to the context, instead of resolving to "no identity". -/
theorem optionalAuth_banned_attached_cex :
    OptionalAuthMiddleware cfg0 noFaults dbBanned 0 (Header.bearer tokA0)
      = .attached uBanned ac0 ∧
    uBanned.status = StatusBanned := by
  exact ⟨rfl, rfl⟩

/-- C5 (amended): in optional mode a missing header, unrecognized
prefix, empty token, validation failure, wrong token kind or failed
identity lookup all proceed with no identity attached; but the guard
does not check the identity's status, so whenever validation, kind check
and lookup succeed the identity is attached regardless of its status —
in particular a banned identity with a valid access token is attached. -/
theorem optionalAuth_characterization (cfg : Config) (f : Faults) (db : Db) (now : Nat) :
    (OptionalAuthMiddleware cfg f db now Header.missing = .anonymous) ∧
    (∀ s, OptionalAuthMiddleware cfg f db now (Header.notBearer s) = .anonymous) ∧
    (OptionalAuthMiddleware cfg f db now Header.bearerEmpty = .anonymous) ∧
    (∀ t e, ValidateToken cfg now t = .error e →
      OptionalAuthMiddleware cfg f db now (Header.bearer t) = .anonymous) ∧
    (∀ t c, ValidateToken cfg now t = .ok c → c.tokenType ≠ "access" →
      OptionalAuthMiddleware cfg f db now (Header.bearer t) = .anonymous) ∧
    (∀ t c re, ValidateToken cfg now t = .ok c → c.tokenType = "access" →
      repoFindByID f db c.userId = .error re →
      OptionalAuthMiddleware cfg f db now (Header.bearer t) = .anonymous) ∧
    (∀ t c u, ValidateToken cfg now t = .ok c → c.tokenType = "access" →
      repoFindByID f db c.userId = .ok u →
      OptionalAuthMiddleware cfg f db now (Header.bearer t) = .attached u c) := by
  refine ⟨rfl, fun s => rfl, rfl, ?_, ?_, ?_, ?_⟩
  · intro t e hv
    simp [OptionalAuthMiddleware, hv]
  · intro t c hv hk
    simp [OptionalAuthMiddleware, hv, hk]
  · intro t c re hv hk hu
    simp [OptionalAuthMiddleware, hv, hk, hu]
  · intro t c u hv hk hu
    simp [OptionalAuthMiddleware, hv, hk, hu]

/-- Witness for `optionalAuth_characterization`: the active identity
`u0` with the valid access token `tokA0` is attached. -/
theorem optionalAuth_characterization_witness :
    OptionalAuthMiddleware cfg0 noFaults db0 0 (Header.bearer tokA0) = .attached u0 ac0 :=
  (optionalAuth_characterization cfg0 noFaults db0 0).2.2.2.2.2.2 tokA0 ac0 u0
    (by rfl) (by rfl) (by rfl)

/-- C6: `Login` with a nonexistent email and `Login` with an existing
email but wrong password both fail with the very same
`ErrInvalidCredentials` value — identical code and message — so the
client cannot tell whether the email exists. -/
theorem login_indistinguishable_errors (cfg : Config) (db : Db) (now : Nat)
    (req1 req2 : LoginRequest) (u : User)
    (h1 : db.find? (fun v => v.email = req1.email) = none)
    (h2 : db.find? (fun v => v.email = req2.email) = some u)
    (h3 : u.CheckPassword req2.password = false) :
    (Login cfg noFaults db now req1).1 = .error (.app ErrInvalidCredentials) ∧
    (Login cfg noFaults db now req2).1 = .error (.app ErrInvalidCredentials) ∧
    ErrInvalidCredentials.code = CodeInvalidCredentials ∧
    ErrInvalidCredentials.message = "Invalid credentials" := by
  refine ⟨?_, ?_, rfl, rfl⟩
  · simp [Login, repoFindByEmail, noFaults, h1]
  · simp [Login, repoFindByEmail, noFaults, h2, h3]

/-- Witness for `login_indistinguishable_errors`: unknown email
`b@x.com` versus known email `a@x.com` with a wrong password, on the
concrete store `db0`. -/
theorem login_indistinguishable_errors_witness :
    (Login cfg0 noFaults db0 0 { email := "b@x.com", password := "pw" }).1
      = .error (.app ErrInvalidCredentials) ∧
    (Login cfg0 noFaults db0 0 { email := "a@x.com", password := "wrong" }).1
      = .error (.app ErrInvalidCredentials) ∧
    ErrInvalidCredentials.code = CodeInvalidCredentials ∧
    ErrInvalidCredentials.message = "Invalid credentials" :=
  login_indistinguishable_errors cfg0 db0 0 { email := "b@x.com", password := "pw" }
    { email := "a@x.com", password := "wrong" } u0 (by rfl) (by rfl) (by rfl)

/-- C7: when the supplied old password does not verify against the
identity's stored hash, `ChangePassword` fails with
`ErrInvalidPassword` and leaves the store untouched — in particular the
stored refresh token and password hash are unchanged. -/
theorem changePassword_wrong_old_password (f : Faults) (db : Db) (userID : Nat)
    (oldPassword newPassword : String) (u : User)
    (hu : repoFindByID f db userID = .ok u)
    (hp : u.CheckPassword oldPassword = false) :
    ChangePassword f db userID oldPassword newPassword
      = (.error (.app ErrInvalidPassword), db) := by
  simp [ChangePassword, hu, hp]

/-- Witness for `changePassword_wrong_old_password`: `u0` with a wrong
old password. -/
theorem changePassword_wrong_old_password_witness :
    ChangePassword noFaults db0 1 "wrong" "newpassword"
      = (.error (.app ErrInvalidPassword), db0) :=
  changePassword_wrong_old_password noFaults db0 1 "wrong" "newpassword" u0
    (by rfl) (by rfl)

/-- C8 counterexample: storage failures are not uniformly surfaced as
`Internal`. A failing `UpdateRefreshToken` during `Login` is swallowed —
the login still succeeds — and a failing `FindByEmail` during `Login` is
translated into `InvalidCredentials`, a different error class. -/
theorem login_swallows_storage_failure_cex :
    (Login cfg0 faultsURT db0 0 { email := "a@x.com", password := "pw" }).1.isOk = true ∧
    (Login cfg0 faultsFBE db0 0 { email := "a@x.com", password := "pw" }).1
      = .error (.app ErrInvalidCredentials) := by
  exact ⟨rfl, rfl⟩

/-- C8 (amended): storage failures in `Register` (duplicate check and
row creation), in `Logout` and in the `RefreshTokens` persist step are
surfaced as `ErrInternal`; but `Login` translates a `FindByEmail`
storage failure into `InvalidCredentials` and swallows
`UpdateRefreshToken` failures (the login still succeeds);
`RefreshTokens` translates a `FindByID` storage failure into
`UserNotFound`; `ChangePassword` returns a `FindByID` storage failure
as the raw error rather than `Internal`, and swallows the failure of
its final refresh-token clear. -/
theorem storage_failure_surfacing (cfg : Config) (db : Db) (now newId : Nat) :
    (∀ (req : RegisterRequest) (f : Faults), f.existsByEmail = true →
      (Register cfg f db now newId req).1 = .error (.app ErrInternal)) ∧
    (∀ (req : RegisterRequest) (f : Faults), f.existsByEmail = false → f.create = true →
      db.any (fun v => v.email = req.email) = false →
      (Register cfg f db now newId req).1 = .error (.app ErrInternal)) ∧
    (∀ (uid : Nat) (f : Faults), f.updateRefreshToken = true →
      (Logout f db uid).1 = .error (.app ErrInternal)) ∧
    (∀ (t : TokenStr) (f : Faults) (c : Claims) (u : User), f.updateRefreshToken = true →
      ValidateToken cfg now t = .ok c → c.tokenType = "refresh" →
      repoFindByID f db c.userId = .ok u → u.refreshToken = t → u.IsActive = true →
      (RefreshTokens cfg f db now t).1 = .error (.app ErrInternal)) ∧
    (∀ (req : LoginRequest) (f : Faults), f.findByEmail = true →
      (Login cfg f db now req).1 = .error (.app ErrInvalidCredentials)) ∧
    (∀ (req : LoginRequest) (u : User),
      db.find? (fun v => v.email = req.email) = some u →
      u.CheckPassword req.password = true → u.IsActive = true →
      (Login cfg faultsURT db now req).1.isOk = true) ∧
    (∀ (uid : Nat) (oldPw newPw : String) (u : User),
      repoFindByID faultsURT db uid = .ok u → u.CheckPassword oldPw = true →
      (ChangePassword faultsURT db uid oldPw newPw).1 = .ok ()) ∧
    (∀ (uid : Nat) (oldPw newPw : String) (f : Faults), f.findById = true →
      (ChangePassword f db uid oldPw newPw).1 = .error .raw) ∧
    (∀ (t : TokenStr) (f : Faults) (c : Claims), f.findById = true →
      ValidateToken cfg now t = .ok c → c.tokenType = "refresh" →
      (RefreshTokens cfg f db now t).1 = .error (.app ErrUserNotFound)) := by
  refine ⟨?_, ?_, ?_, ?_, ?_, ?_, ?_, ?_, ?_⟩
  · intro req f hf
    simp [Register, repoExistsByEmail, hf]
  · intro req f hf1 hf2 hex
    simp [Register, repoExistsByEmail, hf1, hex, repoCreate, hf2]
  · intro uid f hf
    simp [Logout, repoUpdateRefreshToken, hf]
  · intro t f c u hf hv hk hu hm ha
    simp [RefreshTokens, hv, hk, hu, hm, ha, repoUpdateRefreshToken, hf]
  · intro req f hf
    simp [Login, repoFindByEmail, hf]
  · intro req u hu hp ha
    simp [Login, repoFindByEmail, faultsURT, noFaults, hu, hp, ha,
      repoUpdateRefreshToken, repoUpdateLastLogin, Except.isOk, Except.toBool]
  · intro uid oldPw newPw u hu hp
    simp only [faultsURT, noFaults] at hu
    simp [ChangePassword, faultsURT, noFaults, hu, hp, repoUpdatePassword,
      repoUpdateRefreshToken]
  · intro uid oldPw newPw f hf
    simp [ChangePassword, repoFindByID, hf]
  · intro t f c hf hv hk
    simp [RefreshTokens, hv, hk, repoFindByID, hf]

/-- Witness for `storage_failure_surfacing`: a failing duplicate-email
check makes the concrete registration fail with `Internal`. -/
theorem storage_failure_surfacing_witness :
    (Register cfg0 faultsEBE db0 0 7 req7).1 = .error (.app ErrInternal) :=
  (storage_failure_surfacing cfg0 db0 0 7).1 req7 faultsEBE (by rfl)

/-- C9: the required-mode guard runs its checks in order — header
present, Bearer prefix, non-empty token, signature-and-expiry
validation, claims kind `access`, identity lookup, identity status
active — short-circuiting at the first failure with that check's
rejection, and invoking the handler with user and claims attached only
when every check passes. Each conjunct fixes the outcome given that all
earlier checks passed and the named one is the first to fail. -/
theorem authMiddleware_check_order (cfg : Config) (f : Faults) (db : Db) (now : Nat) :
    (AuthMiddleware cfg f db now Header.missing
      = .rejected 401 CodeUnauthorized "Authorization header is required" "") ∧
    (∀ s, AuthMiddleware cfg f db now (Header.notBearer s)
      = .rejected 401 CodeUnauthorized "Invalid authorization header format" "") ∧
    (AuthMiddleware cfg f db now Header.bearerEmpty
      = .rejected 401 CodeUnauthorized "Token is required" "") ∧
    (∀ t, (ValidateToken cfg now t).isOk = false →
      AuthMiddleware cfg f db now (Header.bearer t)
        = .rejected 401 CodeInvalidToken "Invalid token" "") ∧
    (∀ t c, ValidateToken cfg now t = .ok c → c.tokenType ≠ "access" →
      AuthMiddleware cfg f db now (Header.bearer t)
        = .rejected 401 CodeInvalidToken "Invalid token" "Invalid token type") ∧
    (∀ t c re, ValidateToken cfg now t = .ok c → c.tokenType = "access" →
      repoFindByID f db c.userId = .error re →
      AuthMiddleware cfg f db now (Header.bearer t)
        = .rejected 404 CodeUserNotFound "User not found" "") ∧
    (∀ t c u, ValidateToken cfg now t = .ok c → c.tokenType = "access" →
      repoFindByID f db c.userId = .ok u → u.IsActive = false →
      AuthMiddleware cfg f db now (Header.bearer t)
        = .rejected 403 CodeForbidden "Account is not active" "") ∧
    (∀ t c u, ValidateToken cfg now t = .ok c → c.tokenType = "access" →
      repoFindByID f db c.userId = .ok u → u.IsActive = true →
      AuthMiddleware cfg f db now (Header.bearer t) = .passed u c) := by
  refine ⟨rfl, fun s => rfl, rfl, ?_, ?_, ?_, ?_, ?_⟩
  · intro t hv
    cases hval : ValidateToken cfg now t with
    | ok c => rw [hval] at hv; simp [Except.isOk, Except.toBool] at hv
    | error e => simp [AuthMiddleware, hval, ErrInvalidToken, NewAppError]
  · intro t c hv hk
    simp [AuthMiddleware, hv, hk, ErrInvalidToken, NewAppError]
  · intro t c re hv hk hu
    simp [AuthMiddleware, hv, hk, hu, ErrUserNotFound, NewAppError]
  · intro t c u hv hk hu ha
    simp [AuthMiddleware, hv, hk, hu, ha]
  · intro t c u hv hk hu ha
    simp [AuthMiddleware, hv, hk, hu, ha]

/-- Witness for `authMiddleware_check_order`: all checks pass for `u0`
with the valid access token `tokA0`, so the handler runs with user and
claims attached. -/
theorem authMiddleware_check_order_witness :
    AuthMiddleware cfg0 noFaults db0 0 (Header.bearer tokA0) = .passed u0 ac0 :=
  (authMiddleware_check_order cfg0 noFaults db0 0).2.2.2.2.2.2.2 tokA0 ac0 u0
    (by rfl) (by rfl) (by rfl) (by rfl)

/-- C10: a successful `Register` always creates the identity with role
`user` and status `active` (never `pending`), and before returning it
persists the refresh token of the returned pair as the identity's
stored refresh token. (`hfresh` says the generated UUID is not already
a row id, which the store's primary key guarantees.) -/
theorem register_defaults_and_persists (cfg : Config) (f : Faults) (db : Db)
    (now newId : Nat) (req : RegisterRequest) (user : User) (pair : TokenPair) (db1 : Db)
    (hfresh : ∀ v ∈ db, v.id ≠ newId)
    (h : Register cfg f db now newId req = (.ok (user, pair), db1)) :
    user.role = RoleUser ∧ user.status = StatusActive ∧
    db1.find? (fun v => v.id = user.id)
      = some { user with refreshToken := pair.refreshToken } := by
  obtain ⟨hu, hp, hdb⟩ := register_ok_inv h
  have hfields := beforeCreate_fields
    { id := newId, email := req.email, password := .plain req.password
      firstName := req.firstName, lastName := req.lastName
      role := RoleUser, status := StatusActive
      refreshToken := .garbage "", lastLoginAt := none }
  refine ⟨?_, ?_, ?_⟩
  · rw [hu]
    exact hfields.1
  · rw [hu]
    exact hfields.2.1
  · have hid : user.id = newId := by
      rw [hu]
      exact hfields.2.2
    have hfind := find?_append_fresh db user newId hfresh hid
    have hres := find?_update_self pair.refreshToken hfind
    rw [hdb]
    conv_lhs => rw [hid]
    exact hres

/-- Witness for `register_defaults_and_persists`: registering `req7`
into an empty store with UUID 7 at time 0. -/
theorem register_defaults_and_persists_witness :
    user7.role = RoleUser ∧ user7.status = StatusActive ∧
    db7.find? (fun v => v.id = user7.id)
      = some { user7 with refreshToken := pair7.refreshToken } :=
  register_defaults_and_persists cfg0 noFaults [] 0 7 req7 user7 pair7 db7
    (by simp) (by rfl)

end GoAuth
